import Mathlib

/-!
Shallow embedding of the port-scanner core of the Security-Tools-Suite
repository (`src/port_scanner.py`) and proofs about it.

The probe layer (`PortScanner.scan_port`) is modelled by making the outcome
of the underlying transport interaction an explicit parameter (`ConnectEvent`):
either `connect_ex` returns an integer code, or it raises `socket.timeout`,
or some other exception is raised (carrying the `str(e)` message).  The
mutation of the scanner's instance lists is modelled by explicit state
passing, and the socket lifecycle of one `scan_port` call is recorded in a
`SocketTrace` (how many sockets the call opened and how many it closed).
The coordinator (`PortScanner.run`) folds `scan_port` over `self.ports`;
thread scheduling only permutes bucket insertion order, which no theorem
below depends on, so the sequential fold is a faithful linearisation.
The port-specification parsing inlined in `main` (lines 120-125) is
modelled by `parsePorts`, with Python's `str.split` and `int` modelled by
`splitChar` and `pyInt`.
-/

namespace PortScan

/-- The status field of a probe outcome dictionary. -/
inductive Status
  | OPEN
  | CLOSED
  | FILTERED
  | ERROR
  deriving DecidableEq

/-- Outcome of the transport interaction inside one `scan_port` call:
`connect_ex` returned the integer `n` — `0` on success, and otherwise
the errno of the C-level `connect()` call, which `connect_ex` returns
instead of raising (ECONNREFUSED, but also ENETUNREACH and the like);
or `connect_ex` raised `socket.timeout`; or some other exception with
message `str(e) = msg` was raised (DNS failure, invalid argument,
socket exhaustion, ...). -/
inductive ConnectEvent
  | retcode (n : Nat)
  | timeoutExc
  | otherExc (msg : String)
  deriving DecidableEq

/-- The dictionary returned by `scan_port`:
`{'port': ..., 'status': ..., 'error': ...}` (the `error` key is present
only in the ERROR branch). -/
structure ProbeResult where
  port : Nat
  status : Status
  error : Option String
  deriving DecidableEq

/-- The `PortScanner` object: constructor arguments plus the three
mutable instance lists initialised empty in `__init__`. -/
structure PortScanner where
  target : String
  ports : List Nat
  timeout : Int
  threads : Nat
  open_ports : List Nat
  closed_ports : List Nat
  filtered_ports : List Nat
  deriving DecidableEq

/-- `PortScanner.__init__`: stores the arguments and initialises the
`open_ports`, `closed_ports`, `filtered_ports` lists to `[]`. -/
def mkScanner (target : String) (ports : List Nat) (timeout : Int)
    (threads : Nat) : PortScanner :=
  ⟨target, ports, timeout, threads, [], [], []⟩

/-- Socket lifecycle bookkeeping for one `scan_port` call: how many
sockets the call opened and how many it closed before returning. -/
structure SocketTrace where
  opened : Nat
  closed : Nat
  deriving DecidableEq

/-- `PortScanner.scan_port` (lines 41-67): creates a socket, sets the
timeout, calls `connect_ex`; on an integer return it closes the socket
and classifies `0` as OPEN (appending to `open_ports`) and anything else
as CLOSED (appending to `closed_ports`); if `socket.timeout` was raised
it appends to `filtered_ports` and returns FILTERED; on any other
exception it returns ERROR with `str(e)`.  Note that `sock.close()`
(line 55) executes only when `connect_ex` returns normally: the two
exception branches leave the socket unclosed, which the `SocketTrace`
component records. -/
def scan_port (self : PortScanner) (port : Nat) (ev : ConnectEvent) :
    ProbeResult × PortScanner × SocketTrace :=
  match ev with
  | .retcode result =>
      if result = 0 then
        (⟨port, .OPEN, none⟩,
         { self with open_ports := self.open_ports ++ [port] }, ⟨1, 1⟩)
      else
        (⟨port, .CLOSED, none⟩,
         { self with closed_ports := self.closed_ports ++ [port] }, ⟨1, 1⟩)
  | .timeoutExc =>
      (⟨port, .FILTERED, none⟩,
       { self with filtered_ports := self.filtered_ports ++ [port] }, ⟨1, 0⟩)
  | .otherExc msg =>
      (⟨port, .ERROR, some msg⟩, self, ⟨1, 0⟩)

/-- The fan-out/collect loop of `PortScanner.run` (lines 76-81): one
`scan_port` per element of `self.ports`, results collected in submission
order, instance-list mutations threaded through the state.  `net` gives,
for each port, the transport outcome of probing `(self.target, port)`. -/
def runPorts (net : Nat → ConnectEvent) :
    List Nat → PortScanner → List ProbeResult × PortScanner
  | [], self => ([], self)
  | p :: ps, self =>
      let step := scan_port self p (net p)
      let rest := runPorts net ps step.2.1
      (step.1 :: rest.1, rest.2)

/-- `PortScanner.run` (lines 69-81): enters
`ThreadPoolExecutor(max_workers=self.threads)` (which raises `ValueError`
when `max_workers` is not positive), submits one `scan_port` task per
port of `self.ports`, and collects `future.result()` in submission
order. -/
def run (self : PortScanner) (net : Nat → ConnectEvent) :
    Except String (List ProbeResult × PortScanner) :=
  if self.threads = 0 then
    .error "ValueError: max_workers must be greater than 0"
  else
    .ok (runPorts net self.ports self)

/-- The ports of the ERROR entries of a result list (the only place the
code records erroring ports: they are never appended to an instance
list). -/
def errorPorts (rs : List ProbeResult) : List Nat :=
  (rs.filter (fun r => decide (r.status = .ERROR))).map ProbeResult.port

/-- Python `str.strip()` restricted to ASCII whitespace, on a character
list. -/
def pyStrip (l : List Char) : List Char :=
  ((l.dropWhile Char.isWhitespace).reverse.dropWhile Char.isWhitespace).reverse

/-- Digit-string to number: `some` exactly when the list is a nonempty
all-digit string. -/
def digitsToNat : List Char → Option Nat
  | [] => none
  | l =>
      if l.all Char.isDigit then
        some (l.foldl (fun a c => 10 * a + (c.toNat - 48)) 0)
      else none

/-- Python `int(s)` on ASCII input: strips whitespace, accepts an
optional sign followed by digits, raises `ValueError` (here: `none`)
otherwise. -/
def pyInt (s : String) : Option Int :=
  match pyStrip s.data with
  | '-' :: rest => (digitsToNat rest).map (fun n => -(n : Int))
  | '+' :: rest => (digitsToNat rest).map (fun n => (n : Int))
  | l => (digitsToNat l).map (fun n => (n : Int))

/-- Python `str.split(sep)` for a one-character separator: splits on
every occurrence, keeping empty pieces. -/
def splitChar (sep : Char) : List Char → List (List Char)
  | [] => [[]]
  | c :: cs =>
      let r := splitChar sep cs
      if c = sep then [] :: r
      else
        match r with
        | [] => [[c]]
        | g :: gs => (c :: g) :: gs

/-- Python `list(range(s, e))`: the integers `s, s+1, ...` strictly below
`e` (empty when `e ≤ s`). -/
def rangeList (s e : Int) : List Int :=
  (List.range (e - s).toNat).map (fun i => s + (i : Int))

/-- The list comprehension `[int(p) for p in tokens]`: converts every
token left to right, failing at the first token `int` rejects. -/
def intAll : List (List Char) → Option (List Int)
  | [] => some []
  | t :: ts =>
      match pyInt (String.mk t), intAll ts with
      | some v, some vs => some (v :: vs)
      | _, _ => none

/-- The port parsing inlined in `main` (lines 120-125): if the spec
contains a dash, split on `-`, unpack exactly two tokens, convert with
`int`, and build `list(range(start, end + 1))`; otherwise split on `,`
and convert every token with `int`.  A failing `int` conversion or an
unpacking of the wrong number of tokens raises `ValueError`. -/
def parsePorts (spec : String) : Except String (List Int) :=
  if spec.data.contains '-' then
    match (splitChar '-' spec.data).map (fun l => String.mk l) with
    | [a, b] =>
        match pyInt a, pyInt b with
        | some s, some e => .ok (rangeList s (e + 1))
        | _, _ => .error "ValueError: invalid literal for int"
    | _ => .error "ValueError: unpack"
  else
    match intAll (splitChar ',' spec.data) with
    | some ps => .ok ps
    | none => .error "ValueError: invalid literal for int"

/-- Status that `scan_port` assigns to a given transport outcome
(derived characterisation, proved against `scan_port` below). -/
def evStatus : ConnectEvent → Status
  | .retcode 0 => .OPEN
  | .retcode (_ + 1) => .CLOSED
  | .timeoutExc => .FILTERED
  | .otherExc _ => .ERROR

/-- Error message that `scan_port` records for a given transport
outcome. -/
def evError : ConnectEvent → Option String
  | .otherExc msg => some msg
  | _ => none

theorem scan_port_fst (self : PortScanner) (port : Nat) (ev : ConnectEvent) :
    (scan_port self port ev).1 = ⟨port, evStatus ev, evError ev⟩ := by
  match ev with
  | .retcode 0 => rfl
  | .retcode (n + 1) => rfl
  | .timeoutExc => rfl
  | .otherExc msg => rfl

theorem scan_port_open (self : PortScanner) (port : Nat) (ev : ConnectEvent) :
    (scan_port self port ev).2.1.open_ports =
      self.open_ports ++ (if evStatus ev = .OPEN then [port] else []) := by
  match ev with
  | .retcode 0 => simp [scan_port, evStatus]
  | .retcode (n + 1) => simp [scan_port, evStatus]
  | .timeoutExc => simp [scan_port, evStatus]
  | .otherExc msg => simp [scan_port, evStatus]

theorem scan_port_closed (self : PortScanner) (port : Nat) (ev : ConnectEvent) :
    (scan_port self port ev).2.1.closed_ports =
      self.closed_ports ++ (if evStatus ev = .CLOSED then [port] else []) := by
  match ev with
  | .retcode 0 => simp [scan_port, evStatus]
  | .retcode (n + 1) => simp [scan_port, evStatus]
  | .timeoutExc => simp [scan_port, evStatus]
  | .otherExc msg => simp [scan_port, evStatus]

theorem scan_port_filtered (self : PortScanner) (port : Nat) (ev : ConnectEvent) :
    (scan_port self port ev).2.1.filtered_ports =
      self.filtered_ports ++ (if evStatus ev = .FILTERED then [port] else []) := by
  match ev with
  | .retcode 0 => simp [scan_port, evStatus]
  | .retcode (n + 1) => simp [scan_port, evStatus]
  | .timeoutExc => simp [scan_port, evStatus]
  | .otherExc msg => simp [scan_port, evStatus]

theorem scan_port_frame (self : PortScanner) (port : Nat) (ev : ConnectEvent) :
    (scan_port self port ev).2.1.target = self.target ∧
    (scan_port self port ev).2.1.ports = self.ports ∧
    (scan_port self port ev).2.1.timeout = self.timeout ∧
    (scan_port self port ev).2.1.threads = self.threads := by
  match ev with
  | .retcode 0 => exact ⟨rfl, rfl, rfl, rfl⟩
  | .retcode (n + 1) => exact ⟨rfl, rfl, rfl, rfl⟩
  | .timeoutExc => exact ⟨rfl, rfl, rfl, rfl⟩
  | .otherExc msg => exact ⟨rfl, rfl, rfl, rfl⟩

theorem runPorts_results (net : Nat → ConnectEvent) (ps : List Nat)
    (self : PortScanner) :
    (runPorts net ps self).1 =
      ps.map (fun p => ⟨p, evStatus (net p), evError (net p)⟩) := by
  induction ps generalizing self with
  | nil => rfl
  | cons p ps ih =>
      simp only [runPorts, List.map_cons, ih, scan_port_fst]

theorem runPorts_open (net : Nat → ConnectEvent) (ps : List Nat)
    (self : PortScanner) :
    (runPorts net ps self).2.open_ports =
      self.open_ports ++ ps.filter (fun p => decide (evStatus (net p) = .OPEN)) := by
  induction ps generalizing self with
  | nil => simp [runPorts]
  | cons p ps ih =>
      simp only [runPorts, ih, scan_port_open, List.filter_cons]
      by_cases h : evStatus (net p) = .OPEN <;> simp [h, List.append_assoc]

theorem runPorts_closed (net : Nat → ConnectEvent) (ps : List Nat)
    (self : PortScanner) :
    (runPorts net ps self).2.closed_ports =
      self.closed_ports ++ ps.filter (fun p => decide (evStatus (net p) = .CLOSED)) := by
  induction ps generalizing self with
  | nil => simp [runPorts]
  | cons p ps ih =>
      simp only [runPorts, ih, scan_port_closed, List.filter_cons]
      by_cases h : evStatus (net p) = .CLOSED <;> simp [h, List.append_assoc]

theorem runPorts_filtered (net : Nat → ConnectEvent) (ps : List Nat)
    (self : PortScanner) :
    (runPorts net ps self).2.filtered_ports =
      self.filtered_ports ++ ps.filter (fun p => decide (evStatus (net p) = .FILTERED)) := by
  induction ps generalizing self with
  | nil => simp [runPorts]
  | cons p ps ih =>
      simp only [runPorts, ih, scan_port_filtered, List.filter_cons]
      by_cases h : evStatus (net p) = .FILTERED <;> simp [h, List.append_assoc]

theorem errorPorts_map (net : Nat → ConnectEvent) (ps : List Nat) :
    errorPorts (ps.map (fun p => ⟨p, evStatus (net p), evError (net p)⟩)) =
      ps.filter (fun p => decide (evStatus (net p) = .ERROR)) := by
  induction ps with
  | nil => rfl
  | cons p ps ih =>
      simp only [errorPorts, List.map_cons, List.filter_cons] at *
      by_cases h : evStatus (net p) = .ERROR <;> simp [h, ih]

theorem filter_status_disjoint (net : Nat → ConnectEvent) (ps : List Nat)
    (s1 s2 : Status) (h : s1 ≠ s2) :
    List.Disjoint (ps.filter (fun p => decide (evStatus (net p) = s1)))
      (ps.filter (fun p => decide (evStatus (net p) = s2))) := by
  intro a ha hb
  simp only [List.mem_filter, decide_eq_true_eq] at ha hb
  exact h (ha.2.symm.trans hb.2)

theorem mem_filter_status_union (net : Nat → ConnectEvent) (ps : List Nat)
    (p : Nat) :
    p ∈ ps ↔
      (p ∈ ps.filter (fun q => decide (evStatus (net q) = .OPEN)) ∨
       p ∈ ps.filter (fun q => decide (evStatus (net q) = .CLOSED)) ∨
       p ∈ ps.filter (fun q => decide (evStatus (net q) = .FILTERED)) ∨
       p ∈ ps.filter (fun q => decide (evStatus (net q) = .ERROR))) := by
  simp only [List.mem_filter, decide_eq_true_eq]
  constructor
  · intro hp
    cases h : evStatus (net p) with
    | OPEN => exact Or.inl ⟨hp, rfl⟩
    | CLOSED => exact Or.inr (Or.inl ⟨hp, rfl⟩)
    | FILTERED => exact Or.inr (Or.inr (Or.inl ⟨hp, rfl⟩))
    | ERROR => exact Or.inr (Or.inr (Or.inr ⟨hp, rfl⟩))
  · rintro (⟨hp, _⟩ | ⟨hp, _⟩ | ⟨hp, _⟩ | ⟨hp, _⟩) <;> exact hp

theorem filter_none {α : Type} (p : α → Bool) (l : List α)
    (h : ∀ a ∈ l, p a = false) : l.filter p = [] := by
  induction l with
  | nil => rfl
  | cons a l ih =>
      simp [List.filter_cons, h a (List.mem_cons_self a l),
        ih (fun b hb => h b (List.mem_cons_of_mem a hb))]

theorem intAll_spec (ts : List (List Char)) (vs : List Int)
    (h : intAll ts = some vs) :
    vs.length = ts.length ∧
    ∀ i : Nat, ts[i]?.map (fun t => pyInt (String.mk t)) = vs[i]?.map some := by
  induction ts generalizing vs with
  | nil =>
      cases h
      exact ⟨rfl, fun i => rfl⟩
  | cons t ts ih =>
      dsimp [intAll] at h
      cases hv : pyInt (String.mk t) with
      | none => rw [hv] at h; cases h
      | some v =>
          cases hrest : intAll ts with
          | none => rw [hv, hrest] at h; cases h
          | some vs' =>
              rw [hv, hrest] at h
              cases h
              obtain ⟨hl, hg⟩ := ih vs' hrest
              refine ⟨by simp [hl], fun i => ?_⟩
              cases i with
              | zero => simp [hv]
              | succ j => simpa using hg j

/-- Claim C1: after a scan over a resolved port list (with no
cancellation and a positive worker count), the open, closed and filtered
buckets and the ERROR entries' ports are pairwise disjoint, and their
union is exactly the input port set. -/
theorem run_partition (t : String) (ports : List Nat) (tmo : Int) (th : Nat)
    (net : Nat → ConnectEvent) :
    ∃ rs sc, run (mkScanner t ports tmo (th + 1)) net = .ok (rs, sc) ∧
      List.Disjoint sc.open_ports sc.closed_ports ∧
      List.Disjoint sc.open_ports sc.filtered_ports ∧
      List.Disjoint sc.closed_ports sc.filtered_ports ∧
      List.Disjoint sc.open_ports (errorPorts rs) ∧
      List.Disjoint sc.closed_ports (errorPorts rs) ∧
      List.Disjoint sc.filtered_ports (errorPorts rs) ∧
      ∀ p, p ∈ ports ↔
        (p ∈ sc.open_ports ∨ p ∈ sc.closed_ports ∨ p ∈ sc.filtered_ports ∨
         p ∈ errorPorts rs) := by
  have ho : (runPorts net ports (mkScanner t ports tmo (th + 1))).2.open_ports
      = ports.filter (fun p => decide (evStatus (net p) = .OPEN)) := by
    rw [runPorts_open]; rfl
  have hc : (runPorts net ports (mkScanner t ports tmo (th + 1))).2.closed_ports
      = ports.filter (fun p => decide (evStatus (net p) = .CLOSED)) := by
    rw [runPorts_closed]; rfl
  have hf : (runPorts net ports (mkScanner t ports tmo (th + 1))).2.filtered_ports
      = ports.filter (fun p => decide (evStatus (net p) = .FILTERED)) := by
    rw [runPorts_filtered]; rfl
  have hr := runPorts_results net ports (mkScanner t ports tmo (th + 1))
  have herr : errorPorts (runPorts net ports (mkScanner t ports tmo (th + 1))).1
      = ports.filter (fun p => decide (evStatus (net p) = .ERROR)) := by
    rw [hr, errorPorts_map]
  refine ⟨(runPorts net ports (mkScanner t ports tmo (th + 1))).1,
          (runPorts net ports (mkScanner t ports tmo (th + 1))).2,
          rfl, ?_, ?_, ?_, ?_, ?_, ?_, ?_⟩
  · rw [ho, hc]
    exact filter_status_disjoint net ports _ _ (by decide)
  · rw [ho, hf]
    exact filter_status_disjoint net ports _ _ (by decide)
  · rw [hc, hf]
    exact filter_status_disjoint net ports _ _ (by decide)
  · rw [ho, herr]
    exact filter_status_disjoint net ports _ _ (by decide)
  · rw [hc, herr]
    exact filter_status_disjoint net ports _ _ (by decide)
  · rw [hf, herr]
    exact filter_status_disjoint net ports _ _ (by decide)
  · intro p
    rw [ho, hc, hf, herr]
    exact mem_filter_status_union net ports p

/-- Claim C2 counterexample: a network-unreachable failure is reported
by `connect_ex` as the nonzero return code ENETUNREACH (101) rather
than by raising, so `scan_port`'s else branch (lines 60-62) classifies
it CLOSED — not ERROR, as the claim's fourth step requires for "any
other transport failure (DNS failure, network unreachable, socket
exhaustion)". -/
theorem scan_port_unreachable_closed :
    (scan_port (mkScanner "10.255.255.1" [80] 1 50) 80
        (.retcode 101)).1.status = .CLOSED ∧
    (scan_port (mkScanner "10.255.255.1" [80] 1 50) 80
        (.retcode 101)).1.status ≠ .ERROR :=
  ⟨rfl, by decide⟩

/-- Claim C2 (amended): one probe classifies its transport outcome by
the code's four branches in order: `connect_ex` returning `0` gives
OPEN; any nonzero return gives CLOSED (explicit refusal, but equally
any other C-level connect error returned rather than raised, such as
network unreachable); a raised `socket.timeout` gives FILTERED; and
only a raised exception (DNS failure, socket exhaustion, ...) gives
ERROR with `str(e)` recorded. -/
theorem scan_port_classification (self : PortScanner) (port : Nat) :
    ((scan_port self port (.retcode 0)).1 = ⟨port, .OPEN, none⟩) ∧
    (∀ n : Nat, (scan_port self port (.retcode (n + 1))).1 = ⟨port, .CLOSED, none⟩) ∧
    ((scan_port self port .timeoutExc).1 = ⟨port, .FILTERED, none⟩) ∧
    (∀ msg : String, (scan_port self port (.otherExc msg)).1 = ⟨port, .ERROR, some msg⟩) :=
  ⟨rfl, fun _ => rfl, rfl, fun _ => rfl⟩

/-- Claim C3: when every probe of a scan errors, the scan still returns
normally with exactly one ERROR outcome per port, each carrying an error
message, and no port is placed in any instance bucket. -/
theorem run_all_errors_completes (t : String) (ports : List Nat) (tmo : Int)
    (th : Nat) (net : Nat → ConnectEvent)
    (h : ∀ p ∈ ports, ∃ msg, net p = .otherExc msg) :
    ∃ rs sc, run (mkScanner t ports tmo (th + 1)) net = .ok (rs, sc) ∧
      rs.length = ports.length ∧
      (∀ r ∈ rs, r.status = .ERROR ∧ r.error.isSome = true) ∧
      sc.open_ports = [] ∧ sc.closed_ports = [] ∧ sc.filtered_ports = [] := by
  have hr := runPorts_results net ports (mkScanner t ports tmo (th + 1))
  have ho : (runPorts net ports (mkScanner t ports tmo (th + 1))).2.open_ports
      = ports.filter (fun p => decide (evStatus (net p) = .OPEN)) := by
    rw [runPorts_open]; rfl
  have hc : (runPorts net ports (mkScanner t ports tmo (th + 1))).2.closed_ports
      = ports.filter (fun p => decide (evStatus (net p) = .CLOSED)) := by
    rw [runPorts_closed]; rfl
  have hf : (runPorts net ports (mkScanner t ports tmo (th + 1))).2.filtered_ports
      = ports.filter (fun p => decide (evStatus (net p) = .FILTERED)) := by
    rw [runPorts_filtered]; rfl
  have hstat : ∀ p ∈ ports, evStatus (net p) = .ERROR := by
    intro p hp
    obtain ⟨msg, hmsg⟩ := h p hp
    rw [hmsg]; rfl
  refine ⟨(runPorts net ports (mkScanner t ports tmo (th + 1))).1,
          (runPorts net ports (mkScanner t ports tmo (th + 1))).2,
          rfl, ?_, ?_, ?_, ?_, ?_⟩
  · rw [hr, List.length_map]
  · rw [hr]
    intro r hrm
    obtain ⟨p, hp, hpr⟩ := List.mem_map.mp hrm
    subst hpr
    obtain ⟨msg, hmsg⟩ := h p hp
    constructor
    · exact hstat p hp
    · show (evError (net p)).isSome = true
      rw [hmsg]; rfl
  · rw [ho]
    exact filter_none _ _ (fun p hp => by rw [hstat p hp]; rfl)
  · rw [hc]
    exact filter_none _ _ (fun p hp => by rw [hstat p hp]; rfl)
  · rw [hf]
    exact filter_none _ _ (fun p hp => by rw [hstat p hp]; rfl)

/-- Witness for claim C3: a two-port scan in which every probe raises,
applied at target "host", ports 22 and 80, timeout 1, 50 workers. -/
theorem run_all_errors_completes_witness :
    ∃ rs sc, run (mkScanner "host" [22, 80] 1 50) (fun _ => .otherExc "boom")
        = .ok (rs, sc) ∧
      rs.length = [22, 80].length ∧
      (∀ r ∈ rs, r.status = .ERROR ∧ r.error.isSome = true) ∧
      sc.open_ports = [] ∧ sc.closed_ports = [] ∧ sc.filtered_ports = [] :=
  run_all_errors_completes "host" [22, 80] 1 49 (fun _ => .otherExc "boom")
    (fun _ _ => ⟨"boom", rfl⟩)

/-- Claim C5 (code bug): on both exception branches `scan_port` opens a
socket and returns without closing it — `sock.close()` on line 55 is
skipped when `connect_ex` raises — while both `connect_ex`-return
branches do close it. -/
theorem scan_port_socket_leak :
    ((scan_port (mkScanner "no.such.host.invalid" [80] 1 50) 80
        (.otherExc "gaierror: Name or service not known")).2.2 = ⟨1, 0⟩) ∧
    ((scan_port (mkScanner "10.255.255.1" [80] 1 50) 80 .timeoutExc).2.2 = ⟨1, 0⟩) ∧
    ((scan_port (mkScanner "127.0.0.1" [80] 1 50) 80 (.retcode 0)).2.2 = ⟨1, 1⟩) ∧
    ((scan_port (mkScanner "127.0.0.1" [80] 1 50) 80 (.retcode 111)).2.2 = ⟨1, 1⟩) :=
  ⟨rfl, rfl, rfl, rfl⟩

/-- Claim C6 counterexample: the probe itself mutates the shared
aggregate — a successful connect appends the port to the scanner's
`open_ports` bucket inside `scan_port`, so the buckets are not unchanged
by the probe. -/
theorem scan_port_mutates_buckets :
    (scan_port (mkScanner "host" [80] 1 50) 80 (.retcode 0)).2.1.open_ports = [80] ∧
    (mkScanner "host" [80] 1 50).open_ports = [] :=
  ⟨rfl, rfl⟩

/-- Claim C6 (amended): `scan_port` returns its outcome to the caller
but also mutates the shared aggregate itself: it appends the port to the
instance bucket matching the outcome (OPEN, CLOSED or FILTERED) and
leaves the buckets unchanged only on the ERROR branch; all other scanner
fields are untouched. -/
theorem scan_port_state_effect (self : PortScanner) (port : Nat)
    (ev : ConnectEvent) :
    (scan_port self port ev).1 = ⟨port, evStatus ev, evError ev⟩ ∧
    (scan_port self port ev).2.1.open_ports
      = self.open_ports ++ (if evStatus ev = .OPEN then [port] else []) ∧
    (scan_port self port ev).2.1.closed_ports
      = self.closed_ports ++ (if evStatus ev = .CLOSED then [port] else []) ∧
    (scan_port self port ev).2.1.filtered_ports
      = self.filtered_ports ++ (if evStatus ev = .FILTERED then [port] else []) ∧
    (scan_port self port ev).2.1.target = self.target ∧
    (scan_port self port ev).2.1.ports = self.ports ∧
    (scan_port self port ev).2.1.timeout = self.timeout ∧
    (scan_port self port ev).2.1.threads = self.threads :=
  ⟨scan_port_fst self port ev, scan_port_open self port ev,
   scan_port_closed self port ev, scan_port_filtered self port ev,
   (scan_port_frame self port ev).1, (scan_port_frame self port ev).2.1,
   (scan_port_frame self port ev).2.2.1, (scan_port_frame self port ev).2.2.2⟩

/-- Claim C7 counterexample: a scan over an empty resolved port set
returns an empty result list with an unchanged scanner, not a
configuration error. -/
theorem run_empty_ports_returns_empty :
    run (mkScanner "host" [] 1 50) (fun _ => .retcode 0)
      = .ok ([], mkScanner "host" [] 1 50) :=
  rfl

/-- Claim C7 (amended): `run` performs no configuration validation: an
empty port set yields an empty result list (for any timeout, including
non-positive ones), and the only fatal configuration is a worker count
below 1, which surfaces as the thread pool's `ValueError`. -/
theorem run_config_behavior (t : String) (ports : List Nat) (tmo : Int)
    (th : Nat) (net : Nat → ConnectEvent) :
    run (mkScanner t [] tmo (th + 1)) net = .ok ([], mkScanner t [] tmo (th + 1)) ∧
    run (mkScanner t ports tmo 0) net
      = .error "ValueError: max_workers must be greater than 0" :=
  ⟨rfl, rfl⟩

/-- Claim C8 counterexample: resolving "70000" succeeds with the
out-of-range port accepted, instead of failing with a parse error. -/
theorem parsePorts_70000_ok : parsePorts "70000" = .ok [70000] :=
  rfl

/-- Claim C8 (amended): the port parsing validates nothing but integer
syntax: ports outside 1..65535 are accepted ("0", "65536"), a range with
start > end yields the empty list ("5-3"), and only a non-integer token
or a dashed spec without exactly two tokens raises `ValueError`. -/
theorem parsePorts_no_validation :
    parsePorts "0" = .ok [0] ∧
    parsePorts "65536" = .ok [65536] ∧
    parsePorts "5-3" = .ok [] ∧
    parsePorts "abc" = .error "ValueError: invalid literal for int" ∧
    parsePorts "1-2-3" = .error "ValueError: unpack" :=
  ⟨rfl, rfl, rfl, rfl, rfl⟩

/-- Claim C9 counterexample: resolving "80,22,80,443" keeps the
duplicate 80, yielding [80, 22, 80, 443] and not the deduplicated
[80, 22, 443]. -/
theorem parsePorts_keeps_duplicates :
    parsePorts "80,22,80,443" = .ok [80, 22, 80, 443] ∧
    parsePorts "80,22,80,443" ≠ .ok [80, 22, 443] := by
  refine ⟨rfl, fun h => ?_⟩
  have h2 : (Except.ok [80, 22, 80, 443] : Except String (List Int))
      = .ok [80, 22, 443] := h
  exact absurd (Except.ok.inj h2) (by decide)

/-- Claim C9 (amended): an explicit comma-separated list resolves
position by position — the output has one integer per token, the i-th
output being exactly what `int` returns on the i-th token — so
duplicates are kept in input order, not removed. -/
theorem parsePorts_explicit_positions (spec : String) (ps : List Int)
    (hdash : spec.data.contains '-' = false)
    (hok : parsePorts spec = .ok ps) :
    ps.length = (splitChar ',' spec.data).length ∧
    ∀ i : Nat, (splitChar ',' spec.data)[i]?.map (fun t => pyInt (String.mk t))
      = ps[i]?.map some := by
  rw [parsePorts] at hok
  rw [hdash] at hok
  simp only [Bool.false_eq_true, if_false] at hok
  cases hall : intAll (splitChar ',' spec.data) with
  | none => rw [hall] at hok; cases hok
  | some vs =>
      rw [hall] at hok
      cases hok
      obtain ⟨hl, hg⟩ := intAll_spec _ _ hall
      exact ⟨hl, fun i => (hg i)⟩

/-- Witness for claim C9 (amended) at the spec's own example list
"80,22,80,443". -/
theorem parsePorts_explicit_positions_witness :
    ([80, 22, 80, 443] : List Int).length
        = (splitChar ',' ("80,22,80,443" : String).data).length ∧
    ∀ i : Nat, (splitChar ',' ("80,22,80,443" : String).data)[i]?.map
        (fun t => pyInt (String.mk t))
      = ([80, 22, 80, 443] : List Int)[i]?.map some :=
  parsePorts_explicit_positions "80,22,80,443" [80, 22, 80, 443] (by decide) rfl

/-- Claim C10: a scan returns exactly one outcome per element of the
input port list, in input order, each outcome carrying that element's
port number — including one entry per occurrence of a duplicated
port. -/
theorem run_results_per_port (t : String) (ports : List Nat) (tmo : Int)
    (th : Nat) (net : Nat → ConnectEvent) :
    ∃ rs sc, run (mkScanner t ports tmo (th + 1)) net = .ok (rs, sc) ∧
      rs.length = ports.length ∧
      ∀ i : Nat, rs[i]?.map ProbeResult.port = ports[i]? := by
  refine ⟨(runPorts net ports (mkScanner t ports tmo (th + 1))).1,
          (runPorts net ports (mkScanner t ports tmo (th + 1))).2,
          rfl, ?_, ?_⟩
  · rw [runPorts_results, List.length_map]
  · intro i
    rw [runPorts_results, List.getElem?_map]
    cases h : ports[i]? <;> simp [h]

end PortScan
